import Mathlib

/-!
# ds-result: a verification development

A shallow embedding of `src/result.hpp` (the `ds::Result<T>` / `ds::Status` vocabulary,
the `Ok` / `Err` factories, the `is_result` / `is_status` predicates and the pass-through
`as_result` / `as_status`), of the `vk` adapters and the `Tracker` payload of
`src/test/test_as_result_status.cpp`, and of the factories of `src/ds_result.hpp`.

* Integers are `Int`; a C++ integral type is a width and a signedness, and
  `static_cast<std::int32_t>` is reduction modulo `2^32` into `[-2^31, 2^31)`.
* C++ types are described by `ObjType` / `CppType`, on which the compile-time predicates run.
* Copy and move construction of a payload act on an explicit program state `W`
  (static counters and the like), passed in and out.
-/

namespace ds

/-! ## Integral and enumeration types -/

/-- The integral types, by width and signedness: `bool` (0 or 1) and the 8, 16, 32 and
64-bit signed and unsigned integer types, which `char`, `short`, `int`, `long`,
`long long` and their unsigned counterparts are. -/
inductive IntegralType
  | bool_
  | int8_t
  | uint8_t
  | int16_t
  | uint16_t
  | int32_t
  | uint32_t
  | int64_t
  | uint64_t
  deriving DecidableEq, Repr

/-- Width in bits of the value representation. -/
def IntegralType.bits : IntegralType → Nat
  | .bool_ => 1
  | .int8_t => 8
  | .uint8_t => 8
  | .int16_t => 16
  | .uint16_t => 16
  | .int32_t => 32
  | .uint32_t => 32
  | .int64_t => 64
  | .uint64_t => 64

/-- Whether the type is a signed integer type (`std::is_signed_v`). -/
def IntegralType.is_signed : IntegralType → Bool
  | .int8_t => true
  | .int16_t => true
  | .int32_t => true
  | .int64_t => true
  | _ => false

/-- Smallest value of the type (`std::numeric_limits<X>::min()`). -/
def IntegralType.min_value (X : IntegralType) : Int :=
  if X.is_signed then -(2 ^ (X.bits - 1)) else 0

/-- Largest value of the type (`std::numeric_limits<X>::max()`). -/
def IntegralType.max_value (X : IntegralType) : Int :=
  if X.is_signed then 2 ^ (X.bits - 1) - 1 else 2 ^ X.bits - 1

/-- The integer `v` is a value of the integral type `X`. -/
def IntegralType.holds (X : IntegralType) (v : Int) : Prop :=
  X.min_value ≤ v ∧ v ≤ X.max_value

instance (X : IntegralType) (v : Int) : Decidable (X.holds v) := by
  unfold IntegralType.holds
  exact inferInstance

/-- A type that satisfies `std::is_enum_v<X> || std::is_integral_v<X>`, the constraint that
`Err` puts on `CodeT` and on `FacilityT`. A value of an enumeration is written as the
integer it has in its underlying type. -/
inductive ArgType
  | integral (X : IntegralType)
  | enumeration (underlying : IntegralType)
  deriving DecidableEq, Repr

/-- Whether `std::is_enum_v<X>`. -/
def ArgType.is_enum : ArgType → Bool
  | .enumeration _ => true
  | .integral _ => false

/-- The integral type whose values the argument type has: the type itself, or
`std::underlying_type_t<X>` of an enumeration. -/
def ArgType.carrier : ArgType → IntegralType
  | .integral X => X
  | .enumeration U => U

/-- The integer `v` is a value of the argument type `X`. -/
def ArgType.holds (X : ArgType) (v : Int) : Prop := X.carrier.holds v

instance (X : ArgType) (v : Int) : Decidable (X.holds v) := by
  unfold ArgType.holds
  exact inferInstance

/-- Conversion `static_cast<std::int32_t>(v)` of an integer value: the value of the
destination type congruent to `v` modulo `2^32` (`2147483648 = 2^31`, `4294967296 = 2^32`). -/
def static_cast_int32 (v : Int) : Int :=
  (v + 2147483648) % 4294967296 - 2147483648

/-- Conversion `std::to_underlying(v)`: an enumerator is already written as its integer. -/
def to_underlying (v : Int) : Int := v

namespace detail

/-- Embedding of `ds::detail::to_i32` (result.hpp:13-25). -/
def to_i32 (X : ArgType) (v : Int) : Int :=
  if X.is_enum then
    static_cast_int32 (to_underlying v)
  else
    static_cast_int32 v

end detail

/-! ## ErrorInfo, Result, Status -/

/-- Embedding of `struct ErrorInfo` (result.hpp:30-33); both fields are `std::int32_t`. -/
structure ErrorInfo where
  facility : Int := 0
  error_code : Int := 0
  deriving DecidableEq, Repr

end ds

namespace std

/-- Embedding of `std::expected<T, E>`: exactly one of a value and an error. -/
inductive expected (T E : Type) where
  | value (v : T)
  | unexpected (e : E)
  deriving DecidableEq, Repr

/-- Member `has_value()`. -/
def expected.has_value {T E : Type} : expected T E → Bool
  | .value _ => true
  | .unexpected _ => false

/-- Member `value()` / `operator*`, defined only in the success state. -/
def expected.value? {T E : Type} : expected T E → Option T
  | .value v => some v
  | .unexpected _ => none

/-- Member `error()`, defined only in the failure state. -/
def expected.error? {T E : Type} : expected T E → Option E
  | .value _ => none
  | .unexpected e => some e

/-- Embedding of `std::monostate`: a type with one value. -/
structure monostate where
  deriving DecidableEq, Repr

end std

namespace ds

/-- Embedding of `template <typename T> using Result = std::expected<T, ErrorInfo>`. -/
abbrev Result (T : Type) : Type := std.expected T ErrorInfo

/-- Embedding of `using Status = Result<std::monostate>`. -/
abbrev Status : Type := Result std.monostate

end ds

namespace ds

/-! ## C++ types, for the compile-time predicates -/

/-- A cv-unqualified object type. The payload of `std::expected<T, E>` is an object type
with its own cv-qualification; its error type is cv-unqualified. -/
inductive ObjType
  | integral (X : IntegralType)
  | enumeration (id : Nat) (underlying : IntegralType)
  | class_type (id : Nat)
  | monostate
  | ErrorInfo
  | pointer (pointee : ObjType) (pointee_const pointee_volatile : Bool)
  | expected (T : ObjType) (T_const T_volatile : Bool) (E : ObjType)
  deriving DecidableEq, Repr

/-- Reference part of a type: `X`, `X&` or `X&&`. -/
inductive RefKind
  | none
  | lvalue
  | rvalue
  deriving DecidableEq, Repr

/-- A C++ type `[const] [volatile] core [& | &&]`. For a reference the cv flags are
those of the referred-to type. -/
structure CppType where
  core : ObjType
  is_const : Bool
  is_volatile : Bool
  ref : RefKind
  deriving DecidableEq, Repr

/-- The type `ds::Result<T>` for a payload `T` with the given cv-qualification. -/
def Result_type (T : ObjType) (T_const T_volatile : Bool) : ObjType :=
  .expected T T_const T_volatile .ErrorInfo

/-- The type `ds::Status`, that is `ds::Result<std::monostate>`. -/
def Status_type : ObjType := Result_type .monostate false false

/-- A plain, unqualified, non-reference type. -/
def CppType.plain (core : ObjType) : CppType := ⟨core, false, false, .none⟩

/-- Embedding of `std::remove_reference_t<X>`. -/
def remove_reference_t (X : CppType) : CppType := { X with ref := .none }

/-- Embedding of `std::remove_cv_t<X>`: drops the top-level cv-qualifiers; a reference
type has none. -/
def remove_cv_t (X : CppType) : CppType :=
  match X.ref with
  | .none => { X with is_const := false, is_volatile := false }
  | _ => X

/-- Embedding of `std::remove_cvref_t<X>`. -/
def remove_cvref_t (X : CppType) : CppType := remove_cv_t (remove_reference_t X)

/-- Embedding of the class template `is_result` (result.hpp:77-80): the primary template
is `false_type`, the partial specialisation for `ds::Result<T>` is `true_type`. -/
def is_result (X : CppType) : Bool :=
  match X with
  | ⟨.expected _ _ _ .ErrorInfo, false, false, .none⟩ => true
  | _ => false

/-- Embedding of `is_result_v<X>` (result.hpp:81-82). -/
def is_result_v (X : CppType) : Bool := is_result (remove_cvref_t X)

/-- Embedding of `std::is_same_v<A, B>`. -/
def is_same_v (A B : CppType) : Bool := decide (A = B)

/-- Embedding of `is_status_v<T>` (result.hpp:84-85). -/
def is_status_v (T : CppType) : Bool := is_same_v (remove_cvref_t T) (CppType.plain Status_type)

/-! ## Value categories, copy and move construction -/

/-- Category of the argument expression bound to a forwarding reference. -/
inductive ValueCategory
  | lvalue
  | const_lvalue
  | rvalue
  deriving DecidableEq, Repr

/-- The template argument deduced for `T` from a call `f(arg)` of `f(T&& arg)` with an
argument of object type `U`: `U&` for an lvalue, `const U&` for a const lvalue, `U` for
an rvalue. -/
def forwarding_deduce (cat : ValueCategory) (U : ObjType) : CppType :=
  match cat with
  | .lvalue => ⟨U, false, false, .lvalue⟩
  | .const_lvalue => ⟨U, true, false, .lvalue⟩
  | .rvalue => ⟨U, false, false, .none⟩

/-- Whether `std::expected<T, E>` can be instantiated for the payload type `T`:
a program that instantiates it for a reference type is ill-formed. -/
def expected_instantiable (T : CppType) : Bool :=
  match T.ref with
  | .none => true
  | _ => false

/-- Outcome of a move construction. -/
structure Moved (W T : Type) where
  obj : T
  src : T
  state : W

/-- The copy constructor `T(const T&)` and the move constructor `T(T&&)` of a payload
type, over the program state `W`. The copy constructor returns the new object and the
state; the move constructor also returns the moved-from source. -/
structure PayloadOps (W T : Type) where
  copy_ctor : T → W → T × W
  move_ctor : T → W → Moved W T

/-- Constructors of a trivially copyable type (`int`, `std::monostate`): the new object
has the value of the source, nothing else changes. -/
def PayloadOps.trivial (W T : Type) : PayloadOps W T where
  copy_ctor := fun v w => (v, w)
  move_ctor := fun v w => ⟨v, v, w⟩

/-- The copy and the move constructor both give the new object the value of the source
(the semantic requirement of CopyConstructible and MoveConstructible). -/
def PayloadOps.value_preserving {W T : Type} (ops : PayloadOps W T) : Prop :=
  (∀ v w, (ops.copy_ctor v w).1 = v) ∧ (∀ v w, (ops.move_ctor v w).obj = v)

/-- Outcome of constructing a container from another one. -/
structure Converted (W T : Type) where
  result : Result T
  source : Result T
  state : W

/-- Copy constructor of `Result<T>`: copies the active slot. `ErrorInfo` is trivially
copyable. -/
def Result_copy_ctor {W T : Type} (ops : PayloadOps W T) (rhs : Result T) (w : W) :
    Converted W T :=
  match rhs with
  | .value v => ⟨.value (ops.copy_ctor v w).1, rhs, (ops.copy_ctor v w).2⟩
  | .unexpected e => ⟨.unexpected e, rhs, w⟩

/-- Move constructor of `Result<T>`: moves the active slot; the source stays in the
state it was in, holding the moved-from payload. -/
def Result_move_ctor {W T : Type} (ops : PayloadOps W T) (rhs : Result T) (w : W) :
    Converted W T :=
  match rhs with
  | .value v => ⟨.value (ops.move_ctor v w).obj, .value (ops.move_ctor v w).src,
      (ops.move_ctor v w).state⟩
  | .unexpected e => ⟨.unexpected e, rhs, w⟩

/-! ## Factories (result.hpp:45-72) -/

/-- Embedding of `Ok(T&& value)` (result.hpp:45-48). `T` is deduced from the argument;
the return type `Result<T>` exists only when `T` is not a reference, that is for an
rvalue argument, and then `Result<T>(std::forward<T>(value))` move-constructs the payload.
`none` stands for an ill-formed instantiation. -/
def Ok {W T : Type} (ops : PayloadOps W T) (cat : ValueCategory) (U : ObjType)
    (value : T) (w : W) : Option (Result T × W) :=
  if expected_instantiable (forwarding_deduce cat U) then
    some (.value (ops.move_ctor value w).obj, (ops.move_ctor value w).state)
  else
    none

/-- Embedding of `Ok<T>(Args&&... args)` (result.hpp:50-54): the payload is constructed
in place by the constructor `ctor` of `T` selected for `args`. -/
def Ok_in_place {W T Args : Type} (ctor : Args → W → T × W) (args : Args) (w : W) :
    Result T × W :=
  (.value (ctor args w).1, (ctor args w).2)

/-- Embedding of the function template `Err<T, CodeT, FacilityT>` (result.hpp:56-61):
what the Result form returns once overload resolution has selected it. -/
def Err (T : Type) (CodeT FacilityT : ArgType) (code facility : Int) : Result T :=
  .unexpected { facility := detail.to_i32 FacilityT facility,
                error_code := detail.to_i32 CodeT code }

/-- Embedding of the Status form `Ok()` (result.hpp:65). -/
def Ok_status : Status := .value {}

/-- Embedding of the Status form `Err(code, facility)` (result.hpp:67-72). -/
def Err_status (CodeT FacilityT : ArgType) (code facility : Int) : Status :=
  Err std.monostate CodeT FacilityT code facility

/-- The call `Err(code)` of the Status form with `facility` omitted. -/
def Err_status_default (CodeT : ArgType) (code : Int) : Status :=
  Err_status CodeT (.integral .int32_t) code 0

/-- The requires-clause of both forms of `Err` on an argument type,
`std::is_enum_v<X> || std::is_integral_v<X>`: the argument type it admits, if any. -/
def ObjType.enum_or_integral : ObjType → Option ArgType
  | .integral X => some (.integral X)
  | .enumeration _ U => some (.enumeration U)
  | _ => none

/-- The call `ds::Err<T>(code, facility)` with the one explicit template argument `T`,
for `code` of type `CodeT` and `facility` of type `FacilityT`, both enum or integral.
Overload resolution has two candidates: the Result form (result.hpp:56-61), with `T`
explicit and `CodeT`, `FacilityT` deduced, which matches the arguments exactly; and the
Status form (result.hpp:67-72), which reads the explicit argument as its own `CodeT`.
When `T` is the type of `code` the Status form matches exactly as well, neither template
is more specialised, and the call is ambiguous. Otherwise the Status form is not viable
or has to convert `code`, and the Result form is selected. `none` stands for an
ill-formed call; equal descriptors denote the same type. -/
def Err_call (T : Type) (T_type CodeT FacilityT : ObjType) (code facility : Int) :
    Option (Result T) :=
  match CodeT.enum_or_integral, FacilityT.enum_or_integral with
  | some C, some F =>
    if T_type = CodeT then none else some (Err T C F code facility)
  | _, _ => none

/-- The call `ds::Err<T>(code)` with `facility` omitted: in both candidates `FacilityT`
is its default `std::int32_t` and the argument is `FacilityT {0}`. -/
def Err_call_default (T : Type) (T_type CodeT : ObjType) (code : Int) : Option (Result T) :=
  Err_call T T_type CodeT (.integral .int32_t) code 0

/-! ## Pass-through conversions (result.hpp:87-99) -/

/-- The constraint `requires ds::is_result_v<R>` of `as_result`. -/
def as_result_accepts (R : CppType) : Bool := is_result_v R

/-- The constraint `requires ds::is_status_v<S>` of `as_status`. -/
def as_status_accepts (S : CppType) : Bool := is_status_v S

/-- Embedding of the pass-through `as_result(R&& r)` (result.hpp:87-92): the returned
`std::remove_cvref_t<R>` is constructed from `std::forward<R>(r)`, by the copy
constructor for an lvalue or const lvalue and by the move constructor for an rvalue. -/
def as_result {W T : Type} (ops : PayloadOps W T) (cat : ValueCategory) (r : Result T)
    (w : W) : Converted W T :=
  match cat with
  | .lvalue => Result_copy_ctor ops r w
  | .const_lvalue => Result_copy_ctor ops r w
  | .rvalue => Result_move_ctor ops r w

/-- Embedding of the pass-through `as_status(S&& s)` (result.hpp:94-99); the payload
`std::monostate` is trivially copyable. -/
def as_status {W : Type} (cat : ValueCategory) (s : Status) (w : W) :
    Converted W std.monostate :=
  match cat with
  | .lvalue => Result_copy_ctor (PayloadOps.trivial W std.monostate) s w
  | .const_lvalue => Result_copy_ctor (PayloadOps.trivial W std.monostate) s w
  | .rvalue => Result_move_ctor (PayloadOps.trivial W std.monostate) s w

end ds

/-! ## The `vk` stubs and their adapters (test_as_result_status.cpp:12-51) -/

namespace vk

/-- Embedding of `enum class Result : int`: any value of the underlying type `int`. -/
structure Result where
  val : Int
  in_range : -2147483648 ≤ val ∧ val ≤ 2147483647
  deriving DecidableEq

/-- Enumerator `eSuccess = 0`. -/
def Result.eSuccess : Result := ⟨0, by decide⟩

/-- Enumerator `eError = -1`. -/
def Result.eError : Result := ⟨-1, by decide⟩

/-- Enumerator `eSuboptimal = 1`. -/
def Result.eSuboptimal : Result := ⟨1, by decide⟩

/-- Conversion `static_cast<int>(r)`. -/
def Result.to_int (r : Result) : Int := r.val

/-- Embedding of `template <class T> struct ResultValue`. -/
structure ResultValue (T : Type) where
  value : T
  result : Result

end vk

namespace ds

/-- Embedding of `inline constexpr std::int32_t FACILITY_VK = 1001`. -/
def FACILITY_VK : Int := 1001

/-- Embedding of the adapter `as_status(vk::Result r)` (test_as_result_status.cpp:27-32). -/
def as_status_vk (r : vk.Result) : Status :=
  if r = vk.Result.eSuccess ∨ r = vk.Result.eSuboptimal then
    Ok_status
  else
    Err_status (.integral .int32_t) (.integral .int32_t) r.to_int FACILITY_VK

/-- The type `vk::Result`, an enumeration with underlying type `int`. -/
def vk_Result_type : ObjType := .enumeration 0 .int32_t

/-- Embedding of the adapter `as_result(const vk::ResultValue<T>& rv)`
(test_as_result_status.cpp:34-41), for a payload of type `U`: `rv.value` is a const
lvalue, and `rv.result` goes to `Err<T>` as the enumeration. Both operands of the
conditional expression are part of the instantiated body, so the overload exists only
when the call of `Ok` and the call of `Err<T>` are both well-formed; it then returns the
operand that the discriminant selects. `none` stands for an ill-formed instantiation. -/
def as_result_vk_copy {W T : Type} (ops : PayloadOps W T) (U : ObjType)
    (rv : vk.ResultValue T) (w : W) : Option (Result T × W) :=
  match Ok ops .const_lvalue U rv.value w,
      Err_call T U vk_Result_type (.integral .int32_t) rv.result.val FACILITY_VK with
  | some ok, some err =>
    some (if rv.result = vk.Result.eSuccess ∨ rv.result = vk.Result.eSuboptimal then ok
          else (err, w))
  | _, _ => none

/-- Embedding of the adapter `as_result(vk::ResultValue<T>&& rv)`
(test_as_result_status.cpp:43-50), for a payload of type `U`: `std::move(rv.value)` is
an rvalue, and `rv.result` goes to `Err<T>` as `static_cast<int>(rv.result)`. As in the
by-copy form, the overload exists only when both operands of the conditional expression
are well-formed. -/
def as_result_vk_move {W T : Type} (ops : PayloadOps W T) (U : ObjType)
    (rv : vk.ResultValue T) (w : W) : Option (Result T × W) :=
  match Ok ops .rvalue U rv.value w,
      Err_call T U (.integral .int32_t) (.integral .int32_t) rv.result.to_int FACILITY_VK with
  | some ok, some err =>
    some (if rv.result = vk.Result.eSuccess ∨ rv.result = vk.Result.eSuboptimal then ok
          else (err, w))
  | _, _ => none

end ds

/-! ## The Tracker payload (test_as_result_status.cpp:53-66) -/

/-- Embedding of `struct Tracker`: the non-static member `id`. -/
structure Tracker where
  id : Int := 0
  deriving DecidableEq, Repr

namespace Tracker

/-- The static members `Tracker::copies` and `Tracker::moves`. -/
structure Statics where
  copies : Int
  moves : Int
  deriving DecidableEq, Repr

/-- Embedding of `Tracker(const Tracker& o) : id(o.id) { ++copies; }`. -/
def copy_ctor (o : Tracker) (s : Statics) : Tracker × Statics :=
  ({ id := o.id }, { s with copies := s.copies + 1 })

/-- Embedding of `Tracker(Tracker&& o) noexcept : id(o.id) { ++moves; }`; the source
is read, not changed. -/
def move_ctor (o : Tracker) (s : Statics) : ds.Moved Statics Tracker :=
  ⟨{ id := o.id }, o, { s with moves := s.moves + 1 }⟩

/-- The two constructors of `Tracker`, over its static counters. -/
def ops : ds.PayloadOps Statics Tracker where
  copy_ctor := copy_ctor
  move_ctor := move_ctor

end Tracker

namespace ds

/-! ## Exception specifications (result.hpp:89, 96) -/

/-- What the `noexcept` operator reads of a type: `std::is_nothrow_copy_constructible_v`
and `std::is_nothrow_move_constructible_v`. -/
structure CtorTraits where
  nothrow_copy_constructible : Bool
  nothrow_move_constructible : Bool
  deriving DecidableEq, Repr

/-- Traits of a trivially copyable type: `int`, `std::monostate`. -/
def CtorTraits.trivially_copyable : CtorTraits := ⟨true, true⟩

/-- Traits of `ErrorInfo`, an aggregate of two `std::int32_t`. -/
def ErrorInfo_traits : CtorTraits := ⟨true, true⟩

/-- Traits of `Tracker`: its copy constructor is not declared `noexcept`, its move
constructor is (test_as_result_status.cpp:61-62). -/
def Tracker_traits : CtorTraits := ⟨false, true⟩

/-- Traits of `std::expected<T, E>`: its copy (move) constructor is non-throwing when
the copy (move) constructors of `T` and of `E` both are. -/
def expected_traits (T E : CtorTraits) : CtorTraits :=
  ⟨T.nothrow_copy_constructible && E.nothrow_copy_constructible,
   T.nothrow_move_constructible && E.nothrow_move_constructible⟩

/-- Traits of `ds::Result<T>`. -/
def Result_traits (T : CtorTraits) : CtorTraits := expected_traits T ErrorInfo_traits

/-- The operand `noexcept(std::remove_cvref_t<R>(std::forward<R>(r)))`: the copy
constructor of the target is selected for an lvalue or const lvalue, the move
constructor for an rvalue. -/
def noexcept_construct (target : CtorTraits) (cat : ValueCategory) : Bool :=
  match cat with
  | .lvalue => target.nothrow_copy_constructible
  | .const_lvalue => target.nothrow_copy_constructible
  | .rvalue => target.nothrow_move_constructible

/-- The exception specification of the pass-through `as_result` (result.hpp:89) on a
`Result<T>` with payload traits `T`. -/
def as_result_noexcept (T : CtorTraits) (cat : ValueCategory) : Bool :=
  noexcept_construct (Result_traits T) cat

/-- The exception specification of the pass-through `as_status` (result.hpp:96). -/
def as_status_noexcept (cat : ValueCategory) : Bool :=
  noexcept_construct (Result_traits CtorTraits.trivially_copyable) cat

end ds

/-! ## The header `ds_result.hpp` -/

namespace ds_result_hpp

namespace detail

/-- Embedding of `ds::detail::to_i32` of ds_result.hpp:13-25. -/
def to_i32 (X : ds.ArgType) (v : Int) : Int :=
  if X.is_enum then
    ds.static_cast_int32 (ds.to_underlying v)
  else
    ds.static_cast_int32 v

end detail

/-- Embedding of `struct ErrorInfo` of ds_result.hpp:30-33. -/
structure ErrorInfo where
  facility : Int := 0
  error_code : Int := 0
  deriving DecidableEq, Repr

/-- Embedding of `using Result = std::expected<T, ErrorInfo>` of ds_result.hpp:35-36. -/
abbrev Result (T : Type) : Type := std.expected T ErrorInfo

/-- Embedding of `using Status = Result<std::monostate>` of ds_result.hpp:38. -/
abbrev Status : Type := Result std.monostate

/-- Embedding of `Ok(T&& value)` of ds_result.hpp:42-45. -/
def Ok {W T : Type} (ops : ds.PayloadOps W T) (cat : ds.ValueCategory) (U : ds.ObjType)
    (value : T) (w : W) : Option (Result T × W) :=
  if ds.expected_instantiable (ds.forwarding_deduce cat U) then
    some (.value (ops.move_ctor value w).obj, (ops.move_ctor value w).state)
  else
    none

/-- Embedding of `Ok<T>(Args&&... args)` of ds_result.hpp:47-51. -/
def Ok_in_place {W T Args : Type} (ctor : Args → W → T × W) (args : Args) (w : W) :
    Result T × W :=
  (.value (ctor args w).1, (ctor args w).2)

/-- Embedding of `Err<T>(code, facility)` of ds_result.hpp:53-58. -/
def Err (T : Type) (CodeT FacilityT : ds.ArgType) (code facility : Int) : Result T :=
  .unexpected { facility := detail.to_i32 FacilityT facility,
                error_code := detail.to_i32 CodeT code }

/-- Embedding of the Status form `Ok()` of ds_result.hpp:62. -/
def Ok_status : Status := .value {}

/-- Embedding of the Status form `Err(code, facility)` of ds_result.hpp:64-69. -/
def Err_status (CodeT FacilityT : ds.ArgType) (code facility : Int) : Status :=
  Err std.monostate CodeT FacilityT code facility

/-- An `ErrorInfo` of ds_result.hpp read as the `ErrorInfo` of result.hpp with the same
facility and the same error_code. -/
def ErrorInfo.in_result_hpp (e : ErrorInfo) : ds.ErrorInfo :=
  { facility := e.facility, error_code := e.error_code }

/-- A container of ds_result.hpp read as the container of result.hpp in the same state,
with the same payload or the same `ErrorInfo`. -/
def in_result_hpp {T : Type} : Result T → ds.Result T
  | .value v => .value v
  | .unexpected e => .unexpected e.in_result_hpp

end ds_result_hpp

namespace ds

/-! ## Auxiliary facts -/

/-- A value that fits in 32 signed bits is unchanged by the conversion. -/
theorem static_cast_int32_of_fits (v : Int) (hlo : -2147483648 ≤ v) (hhi : v ≤ 2147483647) :
    static_cast_int32 v = v := by
  unfold static_cast_int32
  omega

/-- The conversion lands in the range of `std::int32_t`. -/
theorem static_cast_int32_range (v : Int) :
    -2147483648 ≤ static_cast_int32 v ∧ static_cast_int32 v ≤ 2147483647 := by
  unfold static_cast_int32
  omega

/-- Both branches of `to_i32` are the conversion of the integer value. -/
theorem to_i32_eq (X : ArgType) (v : Int) : detail.to_i32 X v = static_cast_int32 v := by
  unfold detail.to_i32 to_underlying
  split <;> rfl

/-- The copy constructor keeps the state of the container and its `ErrorInfo`, whatever
the payload's constructors do. -/
theorem Result_copy_ctor_state {W T : Type} (ops : PayloadOps W T) (r : Result T) (w : W) :
    (Result_copy_ctor ops r w).result.has_value = r.has_value ∧
    (Result_copy_ctor ops r w).result.error? = r.error? ∧
    (Result_copy_ctor ops r w).source = r := by
  cases r <;> simp [Result_copy_ctor, std.expected.has_value, std.expected.error?]

/-- The move constructor keeps the state of the container and its `ErrorInfo`, whatever
the payload's constructors do. -/
theorem Result_move_ctor_state {W T : Type} (ops : PayloadOps W T) (r : Result T) (w : W) :
    (Result_move_ctor ops r w).result.has_value = r.has_value ∧
    (Result_move_ctor ops r w).result.error? = r.error? ∧
    (Result_move_ctor ops r w).source.has_value = r.has_value := by
  cases r <;> simp [Result_move_ctor, std.expected.has_value, std.expected.error?]

/-- The constructors of a trivially copyable type preserve the value. -/
theorem trivial_value_preserving (W T : Type) : (PayloadOps.trivial W T).value_preserving := by
  constructor <;> intro v w <;> rfl

/-! ## Pass-through conversions -/

/-- C1: for every payload type whose copy and move constructors give an equal object, and
for each of the lvalue, const-lvalue and rvalue forms, the pass-through `as_result(r)`
returns a container in the state of `r`: success with an equal payload when `r` is a
success, failure with the same facility and error_code when `r` is a failure; it is a
failure only if `r` is one. -/
theorem as_result_pass_through {W T : Type} (ops : PayloadOps W T)
    (hops : ops.value_preserving) (cat : ValueCategory) (r : Result T) (w : W) :
    (as_result ops cat r w).result = r ∧
    (as_result ops cat r w).result.has_value = r.has_value ∧
    (∀ v, r = .value v → (as_result ops cat r w).result.value? = some v) ∧
    (∀ e, r = .unexpected e →
      (as_result ops cat r w).result.error? = some ⟨e.facility, e.error_code⟩) ∧
    ((as_result ops cat r w).result.has_value = false → r.has_value = false) := by
  have key : (as_result ops cat r w).result = r := by
    obtain ⟨hc, hm⟩ := hops
    cases cat <;> cases r <;> simp [as_result, Result_copy_ctor, Result_move_ctor, hc, hm]
  rw [key]
  refine ⟨rfl, rfl, ?_, ?_, fun h => h⟩
  · intro v hv
    rw [hv]
    rfl
  · intro e he
    rw [he]
    rfl

/-- C1, at an input: the const-lvalue form on `Ok(42)` of `Result<int>` (the test's case). -/
theorem as_result_pass_through_witness :
    (PayloadOps.trivial Unit Int).value_preserving ∧
    (as_result (PayloadOps.trivial Unit Int) .const_lvalue (.value 42) ()).result
      = .value 42 :=
  ⟨trivial_value_preserving Unit Int,
   (as_result_pass_through (PayloadOps.trivial Unit Int) (trivial_value_preserving Unit Int)
      .const_lvalue (.value 42) ()).1⟩

/-- C2: for every Status `s` and every argument form, the pass-through `as_status(s)`
returns a Status in the state of `s`, with exactly its `ErrorInfo` when it is a failure;
`as_status(Err(5, 123))` is a failure with error_code 5 and facility 123. -/
theorem as_status_pass_through {W : Type} (cat : ValueCategory) (s : Status) (w : W) :
    (as_status cat s w).result = s ∧
    (as_status cat s w).result.has_value = s.has_value ∧
    (as_status cat s w).result.error? = s.error? ∧
    (as_status cat (Err_status (.integral .int32_t) (.integral .int32_t) 5 123) w).result
      = .unexpected { facility := 123, error_code := 5 } := by
  have key : ∀ t : Status, (as_status cat t w).result = t := by
    intro t
    cases cat <;> cases t <;> rfl
  refine ⟨key s, ?_, ?_, ?_⟩
  · rw [key s]
  · rw [key s]
  · rw [key]
    decide

/-- C3: `Status` is `Result<std::monostate>`, so the pass-through `as_result` accepts a
Status under every cv and reference qualification, as `as_status` does, and on every
Status both return the same thing: a Status equal to the argument. -/
theorem as_result_on_status {W : Type} (c v : Bool) (ref : RefKind) (cat : ValueCategory)
    (s : Status) (w : W) :
    as_result_accepts ⟨Status_type, c, v, ref⟩ = true ∧
    as_status_accepts ⟨Status_type, c, v, ref⟩ = true ∧
    as_result (PayloadOps.trivial W std.monostate) cat s w = as_status cat s w ∧
    (as_result (PayloadOps.trivial W std.monostate) cat s w).result = s ∧
    (as_status cat s w).result = s := by
  refine ⟨?_, ?_, ?_, ?_, ?_⟩
  · cases c <;> cases v <;> cases ref <;> decide
  · cases c <;> cases v <;> cases ref <;> decide
  · cases cat <;> rfl
  · cases cat <;> cases s <;> rfl
  · cases cat <;> cases s <;> rfl

/-! ## Factories -/

/-- The function `Err<T, CodeT, FacilityT>`, once selected, and the Status form
`Err(code, facility)` return failures; the first argument is stored in `error_code`, the
second in `facility`, each converted to `std::int32_t`. -/
theorem Err_selected_is_failure (T : Type) (CodeT FacilityT : ArgType) (code facility : Int) :
    (Err T CodeT FacilityT code facility).has_value = false ∧
    (Err T CodeT FacilityT code facility).value? = none ∧
    (Err T CodeT FacilityT code facility).error? =
      some { facility := static_cast_int32 facility, error_code := static_cast_int32 code } ∧
    (Err_status CodeT FacilityT code facility).has_value = false ∧
    (Err_status CodeT FacilityT code facility).error? =
      some { facility := static_cast_int32 facility, error_code := static_cast_int32 code } ∧
    Err_status (.enumeration .int32_t) (.enumeration .int32_t) 5 123
      = .unexpected { facility := 123, error_code := 5 } := by
  refine ⟨rfl, rfl, ?_, rfl, ?_, by decide⟩
  · simp [Err, std.expected.error?, to_i32_eq]
  · simp [Err_status, Err, std.expected.error?, to_i32_eq]

/-- When `T` is not the type of `code`, the call `Err<T>(code, facility)` selects the
Result form and is the failure with `error_code = int32(code)` and
`facility = int32(facility)`. -/
theorem Err_call_of_other_type (T : Type) (T_type CodeT FacilityT : ObjType) (C F : ArgType)
    (code facility : Int) (hC : CodeT.enum_or_integral = some C)
    (hF : FacilityT.enum_or_integral = some F) (hT : T_type ≠ CodeT) :
    Err_call T T_type CodeT FacilityT code facility =
      some (.unexpected { facility := static_cast_int32 facility,
                          error_code := static_cast_int32 code }) := by
  unfold Err_call
  rw [hC, hF]
  simp [hT, Err, to_i32_eq]

/-- The Status form with `facility` omitted, `Err(code)`, is the failure with facility 0
and error_code `int32(code)`, the same container as `Err(code, 0)` with a zero of any
accepted facility type. -/
theorem Err_status_default_facility (CodeT FacilityT : ArgType) (code : Int) :
    Err_status_default CodeT code = Err_status CodeT FacilityT code 0 ∧
    Err_status_default CodeT code
      = .unexpected { facility := 0, error_code := static_cast_int32 code } := by
  have h0 : ∀ X : ArgType, detail.to_i32 X 0 = 0 := by
    intro X
    rw [to_i32_eq]
    decide
  refine ⟨?_, ?_⟩ <;> simp [Err_status_default, Err_status, Err, h0, to_i32_eq]

/-- When `T` is not the type of `code`, the call `Err<T>(code)` with `facility` omitted is
the failure with facility 0 and error_code `int32(code)`. -/
theorem Err_call_default_of_other_type (T : Type) (T_type CodeT : ObjType) (C : ArgType)
    (code : Int) (hC : CodeT.enum_or_integral = some C) (hT : T_type ≠ CodeT) :
    Err_call_default T T_type CodeT code =
      some (.unexpected { facility := 0, error_code := static_cast_int32 code }) := by
  unfold Err_call_default
  rw [Err_call_of_other_type T T_type CodeT (.integral .int32_t) C (.integral .int32_t)
    code 0 hC rfl hT]
  rfl

/-- The calls of `Err<T>` in the tests select the Result form: `Err<int>` with a code of
type `CustomEc` and a facility of type `Facilities` (test.cpp:28-31), and
`Err<MoveOnly>` with the same arguments (test.cpp:53). -/
theorem Err_call_in_tests :
    Err_call Int (.integral .int32_t) (.enumeration 2 .int32_t) (.enumeration 1 .int32_t) 1 0
      = some (.unexpected { facility := 0, error_code := 1 }) ∧
    Err_call Unit (.class_type 2) (.enumeration 2 .int32_t) (.enumeration 1 .int32_t) 1 1
      = some (.unexpected { facility := 1, error_code := 1 }) := by
  constructor <;> decide

/-- C4, at the failing input: the call `Err<T>(code, facility)` whose payload type `T` is
the type of `code` is ambiguous between the Result form and the Status form and
produces no container; so `Err<int>(5, 1001)` is not a failure with error_code 5 and
facility 1001. -/
theorem Err_call_on_own_code_type_is_ambiguous (T : Type) (CodeT FacilityT : ObjType)
    (code facility : Int) :
    Err_call T CodeT CodeT FacilityT code facility = none ∧
    Err_call Int (.integral .int32_t) (.integral .int32_t) (.integral .int32_t) 5 1001
      = none := by
  refine ⟨?_, by decide⟩
  unfold Err_call
  split
  · simp
  · rfl

/-- C5, at the failing input: with `facility` omitted, the call `Err<T>(code)` whose
payload type `T` is the type of `code` is ambiguous as well and produces no container;
so `Err<int>(5)` is not a failure with facility 0 and error_code 5. -/
theorem Err_call_default_on_own_code_type_is_ambiguous (T : Type) (CodeT : ObjType)
    (code : Int) :
    Err_call_default T CodeT CodeT code = none ∧
    Err_call_default Int (.integral .int32_t) (.integral .int32_t) 5 = none := by
  refine ⟨?_, by decide⟩
  unfold Err_call_default Err_call
  split
  · simp
  · rfl

end ds

namespace ds

/-- The call of `Ok` on a const lvalue is ill-formed. -/
theorem Ok_of_const_lvalue {W T : Type} (ops : PayloadOps W T) (U : ObjType)
    (value : T) (w : W) : Ok ops .const_lvalue U value w = none := by
  simp [Ok, forwarding_deduce, expected_instantiable]

/-- Called on an rvalue, `Ok(value)` is a success whose payload is the move-constructed
`value`; with a value-preserving move constructor it is equal to `value`. -/
theorem Ok_of_rvalue {W T : Type} (ops : PayloadOps W T) (hops : ops.value_preserving)
    (U : ObjType) (value : T) (w : W) :
    Ok ops .rvalue U value w = some (.value value, (ops.move_ctor value w).state) := by
  simp [Ok, forwarding_deduce, expected_instantiable, hops.2]

/-- The in-place form `Ok<T>(args...)` is a success holding the `T` constructed from
`args`. -/
theorem Ok_in_place_is_success {W T Args : Type} (ctor : Args → W → T × W) (args : Args)
    (w : W) :
    (Ok_in_place ctor args w).1.has_value = true ∧
    (Ok_in_place ctor args w).1.value? = some (ctor args w).1 :=
  ⟨rfl, rfl⟩

/-- The Status form `Ok()` is a success. -/
theorem Ok_status_is_success : Ok_status.has_value = true ∧ Ok_status.error? = none :=
  ⟨rfl, rfl⟩

/-- C6, at the failing input: `Ok(v)` called on an lvalue or a const lvalue `v` deduces a
reference for `T`, `Result<T>` cannot be instantiated, and no container is produced;
so for `int x = 5`, `Ok(x)` is not a success holding 5. -/
theorem Ok_of_lvalue_is_ill_formed {W T : Type} (ops : PayloadOps W T) (U : ObjType)
    (value : T) (w : W) :
    Ok ops .lvalue U value w = none ∧
    Ok ops .const_lvalue U value w = none ∧
    Ok (PayloadOps.trivial Unit Int) .lvalue (.integral .int32_t) 5 () = none := by
  refine ⟨?_, ?_, ?_⟩ <;> simp [Ok, forwarding_deduce, expected_instantiable]

/-! ## The `vk` adapters -/

/-- C7: the adapter `as_status(vk::Result)` maps `eSuccess` and `eSuboptimal` to success
and `eError` to the failure with facility `FACILITY_VK` = 1001 and error_code -1; for
every discriminant `r` it is a success exactly when `r` is `eSuccess` or `eSuboptimal`,
and otherwise the failure with facility 1001 and error_code the integer value of `r`. -/
theorem as_status_vk_classifies (r : vk.Result) :
    (as_status_vk vk.Result.eSuccess).has_value = true ∧
    (as_status_vk vk.Result.eSuboptimal).has_value = true ∧
    as_status_vk vk.Result.eError = .unexpected { facility := 1001, error_code := -1 } ∧
    ((as_status_vk r).has_value = true ↔ (r = vk.Result.eSuccess ∨ r = vk.Result.eSuboptimal)) ∧
    as_status_vk r =
      (if r = vk.Result.eSuccess ∨ r = vk.Result.eSuboptimal then .value {}
       else .unexpected { facility := FACILITY_VK, error_code := r.val }) ∧
    FACILITY_VK = 1001 := by
  have hcode : detail.to_i32 (.integral .int32_t) r.to_int = r.val := by
    rw [to_i32_eq]
    exact static_cast_int32_of_fits r.val r.in_range.1 r.in_range.2
  have hfac : detail.to_i32 (.integral .int32_t) FACILITY_VK = FACILITY_VK := by
    rw [to_i32_eq]
    decide
  refine ⟨by decide, by decide, by decide, ?_, ?_, rfl⟩
  · unfold as_status_vk
    split
    · rename_i h
      simp [h, Ok_status, std.expected.has_value]
    · rename_i h
      simp [h, Err_status, Err, std.expected.has_value]
  · unfold as_status_vk
    split
    · rfl
    · simp [Err_status, Err, hcode, hfac]

/-- The by-move adapter on a payload type other than `int`: success with the payload of
`rv` when the discriminant is `eSuccess` or `eSuboptimal`, otherwise the failure with
facility 1001 and the discriminant as error_code. -/
theorem as_result_vk_move_spec {W T : Type} (ops : PayloadOps W T)
    (hops : ops.value_preserving) (U : ObjType) (hU : U ≠ .integral .int32_t)
    (rv : vk.ResultValue T) (w : W) :
    as_result_vk_move ops U rv w =
      (if rv.result = vk.Result.eSuccess ∨ rv.result = vk.Result.eSuboptimal then
        some (.value rv.value, (ops.move_ctor rv.value w).state)
       else
        some (.unexpected { facility := 1001, error_code := rv.result.val }, w)) := by
  have hcode : static_cast_int32 rv.result.to_int = rv.result.val :=
    static_cast_int32_of_fits rv.result.val rv.result.in_range.1 rv.result.in_range.2
  have hfac : static_cast_int32 FACILITY_VK = 1001 := by decide
  unfold as_result_vk_move
  rw [Ok_of_rvalue ops hops U rv.value w,
    Err_call_of_other_type T U (.integral .int32_t) (.integral .int32_t)
      (.integral .int32_t) (.integral .int32_t) rv.result.to_int FACILITY_VK rfl rfl hU,
    hcode, hfac]
  by_cases h : rv.result = vk.Result.eSuccess ∨ rv.result = vk.Result.eSuboptimal
  · simp [h]
  · simp [h]

/-- C8, at the failing input: the by-copy form `as_result(rv)` has the call of `Ok` on
the const lvalue `rv.value` in its body and produces no container, for every payload
type and every discriminant, so not the success holding 5 for `rv1 = {5, eSuccess}` of
`vk::ResultValue<int>`; and at the payload type `int` the by-move form has the
ambiguous call `Err<int>(int, std::int32_t)` in its body and produces none either. -/
theorem as_result_vk_copy_is_ill_formed {W T : Type} (ops : PayloadOps W T) (U : ObjType)
    (rv : vk.ResultValue T) (w : W) :
    as_result_vk_copy ops U rv w = none ∧
    as_result_vk_copy (PayloadOps.trivial Unit Int) (.integral .int32_t)
      ⟨5, vk.Result.eSuccess⟩ () = none ∧
    as_result_vk_move ops (.integral .int32_t) rv w = none ∧
    as_result_vk_move (PayloadOps.trivial Unit Int) (.integral .int32_t)
      ⟨5, vk.Result.eSuccess⟩ () = none := by
  have hOk : Ok ops .const_lvalue U rv.value w = none :=
    (Ok_of_const_lvalue ops U rv.value w)
  have hErr : Err_call T (.integral .int32_t) (.integral .int32_t) (.integral .int32_t)
      rv.result.to_int FACILITY_VK = none := by
    simp [Err_call, ObjType.enum_or_integral]
  refine ⟨?_, by decide, ?_, by decide⟩
  · unfold as_result_vk_copy
    rw [hOk]
  · unfold as_result_vk_move
    rw [hErr]
    split
    · rename_i h1 h2
      cases h2
    · rfl

end ds

namespace ds

/-! ## Range of the stored code -/

/-- On a type of at most 32 bits, two values with the same conversion are the same. -/
theorem static_cast_int32_injective (X : IntegralType) (hbits : X.bits ≤ 32) (a b : Int)
    (ha : X.holds a) (hb : X.holds b) (h : static_cast_int32 a = static_cast_int32 b) :
    a = b := by
  unfold static_cast_int32 at h
  cases X <;>
    simp [IntegralType.holds, IntegralType.min_value, IntegralType.max_value,
      IntegralType.is_signed, IntegralType.bits] at ha hb hbits <;>
    omega

/-- C9, as stated, fails: `0` and `2^32` are two different values of a 64-bit signed code
type, and `Err` stores the same error_code, 0, for both. -/
theorem Err_not_lossless_on_int64 :
    ¬ (∀ (CodeT : ArgType) (c1 c2 f : Int), CodeT.holds c1 → CodeT.holds c2 → c1 ≠ c2 →
        ∃ e1 e2, Err std.monostate CodeT (.integral .int32_t) c1 f = .unexpected e1 ∧
          Err std.monostate CodeT (.integral .int32_t) c2 f = .unexpected e2 ∧
          e1.error_code ≠ e2.error_code) := by
  intro h
  obtain ⟨e1, e2, h1, h2, hne⟩ :=
    h (.integral .int64_t) 0 4294967296 0 (by decide) (by decide) (by decide)
  have h1' : e1 = { facility := 0, error_code := 0 } := by
    have : (std.expected.unexpected { facility := 0, error_code := 0 } : Status)
        = .unexpected e1 := by
      rw [← h1]
      decide
    injection this with this
    exact this.symm
  have h2' : e2 = { facility := 0, error_code := 0 } := by
    have : (std.expected.unexpected { facility := 0, error_code := 0 } : Status)
        = .unexpected e2 := by
      rw [← h2]
      decide
    injection this with this
    exact this.symm
  apply hne
  rw [h1', h2']

/-- C9, amended: for every accepted integer or enum type `X` of at most 32 bits, signed or
unsigned, two different values of `X` are stored as different error_codes by `Err`, and
as different facilities when `X` is the facility type. -/
theorem Err_lossless_up_to_32_bits (T : Type) (X Y : ArgType) (hbits : X.carrier.bits ≤ 32)
    (c1 c2 g : Int) (h1 : X.holds c1) (h2 : X.holds c2) (hne : c1 ≠ c2) :
    (∃ e1 e2, Err T X Y c1 g = .unexpected e1 ∧ Err T X Y c2 g = .unexpected e2 ∧
      e1.error_code ≠ e2.error_code) ∧
    (∃ e1 e2, Err T Y X g c1 = .unexpected e1 ∧ Err T Y X g c2 = .unexpected e2 ∧
      e1.facility ≠ e2.facility) ∧
    detail.to_i32 X c1 ≠ detail.to_i32 X c2 := by
  have key : detail.to_i32 X c1 ≠ detail.to_i32 X c2 := by
    intro h
    rw [to_i32_eq, to_i32_eq] at h
    exact hne (static_cast_int32_injective X.carrier hbits c1 c2 h1 h2 h)
  exact ⟨⟨_, _, rfl, rfl, key⟩, ⟨_, _, rfl, rfl, key⟩, key⟩

/-- C9 amended, at an input: the unsigned 32-bit codes 0 and 4294967295 are stored as
different error_codes. -/
theorem Err_lossless_up_to_32_bits_witness :
    (ArgType.integral .uint32_t).carrier.bits ≤ 32 ∧
    (ArgType.integral .uint32_t).holds 0 ∧
    (ArgType.integral .uint32_t).holds 4294967295 ∧
    detail.to_i32 (.integral .uint32_t) 0 ≠ detail.to_i32 (.integral .uint32_t) 4294967295 :=
  ⟨by decide, by decide, by decide,
   (Err_lossless_up_to_32_bits std.monostate (.integral .uint32_t) (.integral .int32_t)
      (by decide) 0 4294967295 0 (by decide) (by decide) (by decide)).2.2⟩

/-! ## Type predicates -/

/-- Stripping reference and cv-qualification leaves the plain core type. -/
theorem remove_cvref_t_eq (X : CppType) : remove_cvref_t X = CppType.plain X.core := by
  rfl

/-- C10: `is_result_v<X>` holds exactly when `X` without its reference and
cv-qualification is `Result<T>` for some `T`, and `is_status_v<X>` exactly when it is
`Status`; this is so for `Result<int>`, `const Result<int>&`, `Result<int>&&`, `Status`
and `const Status&`, not for `int`, and `is_status_v<Result<int>>` is false. -/
theorem is_result_is_status_characterised (X : CppType) :
    (is_result_v X = true ↔
      ∃ T T_const T_volatile, remove_cvref_t X = CppType.plain (Result_type T T_const T_volatile)) ∧
    (is_status_v X = true ↔ remove_cvref_t X = CppType.plain Status_type) ∧
    (is_result_v X = true ↔ ∃ T T_const T_volatile, X.core = Result_type T T_const T_volatile) ∧
    (is_status_v X = true ↔ X.core = Status_type) ∧
    is_result_v (CppType.plain (Result_type (.integral .int32_t) false false)) = true ∧
    is_status_v (CppType.plain Status_type) = true ∧
    is_result_v (CppType.plain (.integral .int32_t)) = false ∧
    is_status_v (CppType.plain (.integral .int32_t)) = false ∧
    is_result_v ⟨Result_type (.integral .int32_t) false false, true, false, .lvalue⟩ = true ∧
    is_result_v ⟨Result_type (.integral .int32_t) false false, false, false, .rvalue⟩ = true ∧
    is_status_v ⟨Status_type, true, false, .lvalue⟩ = true ∧
    is_status_v (CppType.plain (Result_type (.integral .int32_t) false false)) = false ∧
    is_status_v ⟨Result_type (.integral .int32_t) false false, true, false, .lvalue⟩ = false ∧
    is_status_v ⟨Result_type (.integral .int32_t) false false, false, false, .rvalue⟩ = false := by
  have hres : is_result_v X = true ↔
      ∃ T T_const T_volatile, X.core = Result_type T T_const T_volatile := by
    obtain ⟨core, c, v, r⟩ := X
    cases core with
    | expected T tc tv E =>
      cases E <;>
        simp [is_result_v, is_result, remove_cvref_t, remove_cv_t, remove_reference_t,
          Result_type]
    | _ =>
      simp [is_result_v, is_result, remove_cvref_t, remove_cv_t, remove_reference_t,
        Result_type]
  have hst : is_status_v X = true ↔ X.core = Status_type := by
    obtain ⟨core, c, v, r⟩ := X
    simp [is_status_v, is_same_v, remove_cvref_t, remove_cv_t, remove_reference_t,
      CppType.plain]
  refine ⟨?_, ?_, hres, hst, by decide, by decide, by decide, by decide, by decide,
    by decide, by decide, by decide, by decide, by decide⟩
  · rw [hres, remove_cvref_t_eq]
    simp [CppType.plain]
  · rw [hst, remove_cvref_t_eq]
    simp [CppType.plain]

end ds

namespace ds

/-! ## Status among the Results -/

/-- C11: every type for which `is_status_v` holds also satisfies `is_result_v`, and
`is_result_v<Status>` is true since `Status` is `Result<std::monostate>`; the converse
fails, `is_result_v<Result<int>>` being true and `is_status_v<Result<int>>` false. -/
theorem is_status_implies_is_result (X : CppType) (h : is_status_v X = true) :
    is_result_v X = true ∧
    is_result_v (CppType.plain Status_type) = true ∧
    is_result_v (CppType.plain (Result_type (.integral .int32_t) false false)) = true ∧
    is_status_v (CppType.plain (Result_type (.integral .int32_t) false false)) = false := by
  refine ⟨?_, by decide, by decide, by decide⟩
  obtain ⟨core, c, v, r⟩ := X
  have hcore : core = Status_type := by
    simpa [is_status_v, is_same_v, remove_cvref_t, remove_cv_t, remove_reference_t,
      CppType.plain] using h
  subst hcore
  rfl

/-- C11, at an input: `const Status&` satisfies `is_status_v`, hence `is_result_v`. -/
theorem is_status_implies_is_result_witness :
    is_status_v ⟨Status_type, true, false, .lvalue⟩ = true ∧
    is_result_v ⟨Status_type, true, false, .lvalue⟩ = true :=
  ⟨by decide, (is_status_implies_is_result ⟨Status_type, true, false, .lvalue⟩ (by decide)).1⟩

/-! ## Copies and moves of the payload -/

/-- C12: with the counting payload `Tracker`, `as_result` on an rvalue `Result` holding
a payload performs no copy and one move of it; on an lvalue or a const lvalue it performs
one copy and no move, and leaves the source container as it was. The returned container
holds an equal payload in each form, and a failure container is passed through with no
copy and no move. -/
theorem as_result_copies_and_moves (t : Tracker) (e : ErrorInfo) (s : Tracker.Statics) :
    ((as_result Tracker.ops .rvalue (.value t) s).state.copies = s.copies ∧
      (as_result Tracker.ops .rvalue (.value t) s).state.moves = s.moves + 1 ∧
      (as_result Tracker.ops .rvalue (.value t) s).result = .value t) ∧
    ((as_result Tracker.ops .lvalue (.value t) s).state.copies = s.copies + 1 ∧
      (as_result Tracker.ops .lvalue (.value t) s).state.moves = s.moves ∧
      (as_result Tracker.ops .lvalue (.value t) s).source = .value t ∧
      (as_result Tracker.ops .lvalue (.value t) s).result = .value t) ∧
    ((as_result Tracker.ops .const_lvalue (.value t) s).state.copies = s.copies + 1 ∧
      (as_result Tracker.ops .const_lvalue (.value t) s).state.moves = s.moves ∧
      (as_result Tracker.ops .const_lvalue (.value t) s).source = .value t ∧
      (as_result Tracker.ops .const_lvalue (.value t) s).result = .value t) ∧
    (∀ cat, (as_result Tracker.ops cat (.unexpected e) s).state = s ∧
      (as_result Tracker.ops cat (.unexpected e) s).source = .unexpected e) ∧
    (Ok Tracker.ops .rvalue (.class_type 0) { id := 7 } { copies := 0, moves := 0 }).map
        (fun p => as_result Tracker.ops .lvalue p.1 p.2)
      = some ⟨.value { id := 7 }, .value { id := 7 }, { copies := 1, moves := 1 }⟩ ∧
    (Ok Tracker.ops .rvalue (.class_type 0) { id := 9 } { copies := 0, moves := 0 }).map
        (fun p => as_result Tracker.ops .rvalue p.1 p.2)
      = some ⟨.value { id := 9 }, .value { id := 9 }, { copies := 0, moves := 2 }⟩ := by
  refine ⟨⟨rfl, rfl, rfl⟩, ⟨rfl, rfl, rfl, rfl⟩, ⟨rfl, rfl, rfl, rfl⟩, ?_, ?_, ?_⟩
  · intro cat
    cases cat <;> exact ⟨rfl, rfl⟩
  · rfl
  · rfl

/-! ## Exception specifications -/

/-- C13: the pass-through `as_result` / `as_status` is `noexcept` exactly when the
construction of the returned container from the argument is, that is when the payload's
copy constructor is non-throwing for an lvalue or const lvalue and when its move
constructor is for an rvalue; it is `noexcept` for `Result<int>` and `Status` in every
form, and not for a payload whose copy (respectively move) constructor may throw. -/
theorem as_result_noexcept_mirrors_payload (T : CtorTraits) (cat : ValueCategory)
    (other : Bool) :
    as_result_noexcept T cat = noexcept_construct (Result_traits T) cat ∧
    (as_result_noexcept T .lvalue = true ↔ T.nothrow_copy_constructible = true) ∧
    (as_result_noexcept T .const_lvalue = true ↔ T.nothrow_copy_constructible = true) ∧
    (as_result_noexcept T .rvalue = true ↔ T.nothrow_move_constructible = true) ∧
    as_result_noexcept CtorTraits.trivially_copyable cat = true ∧
    as_status_noexcept cat = true ∧
    as_result_noexcept ⟨false, other⟩ .lvalue = false ∧
    as_result_noexcept ⟨false, other⟩ .const_lvalue = false ∧
    as_result_noexcept ⟨other, false⟩ .rvalue = false ∧
    as_result_noexcept Tracker_traits .lvalue = false ∧
    as_result_noexcept Tracker_traits .rvalue = true := by
  refine ⟨rfl, ?_, ?_, ?_, ?_, ?_, ?_, ?_, ?_, by decide, by decide⟩
  · simp [as_result_noexcept, noexcept_construct, Result_traits, expected_traits,
      ErrorInfo_traits]
  · simp [as_result_noexcept, noexcept_construct, Result_traits, expected_traits,
      ErrorInfo_traits]
  · simp [as_result_noexcept, noexcept_construct, Result_traits, expected_traits,
      ErrorInfo_traits]
  · cases cat <;> rfl
  · cases cat <;> rfl
  · rfl
  · rfl
  · cases other <;> rfl

end ds

namespace ds

/-! ## Normalisation of the arguments of `Err` -/

/-- C14: an enumerator and the integer it has in its underlying type are stored as the
same value, so `Err` gives the same `ErrorInfo` for an enum-typed and for the
corresponding integer-typed code or facility; and an integer between `-2^31` and
`2^31 - 1`, of whatever accepted type, is stored unchanged. -/
theorem to_i32_normalises (T : Type) (U : IntegralType) (X Y : ArgType) (e f v : Int)
    (hlo : -2147483648 ≤ v) (hhi : v ≤ 2147483647) :
    detail.to_i32 (.enumeration U) e = detail.to_i32 (.integral U) e ∧
    Err T (.enumeration U) Y e f = Err T (.integral U) Y e f ∧
    Err T Y (.enumeration U) f e = Err T Y (.integral U) f e ∧
    Err_status (.enumeration U) Y e f = Err_status (.integral U) Y e f ∧
    detail.to_i32 X v = v := by
  have henum : detail.to_i32 (.enumeration U) e = detail.to_i32 (.integral U) e := by
    rw [to_i32_eq, to_i32_eq]
  refine ⟨henum, ?_, ?_, ?_, ?_⟩
  · simp [Err, henum]
  · simp [Err, henum]
  · simp [Err_status, Err, henum]
  · rw [to_i32_eq]
    exact static_cast_int32_of_fits v hlo hhi

/-- C14, at an input: the 64-bit value -1 fits in 32 bits and is stored as -1. -/
theorem to_i32_normalises_witness :
    (-2147483648 : Int) ≤ -1 ∧ (-1 : Int) ≤ 2147483647 ∧
    detail.to_i32 (.integral .int64_t) (-1) = -1 :=
  ⟨by decide, by decide,
   (to_i32_normalises std.monostate .int32_t (.integral .int64_t) (.integral .int32_t)
      1 1 (-1) (by decide) (by decide)).2.2.2.2⟩

/-- C15: `to_i32` narrows by wrap-around: its result lies in `[-2^31, 2^31)`, is
congruent to the input modulo `2^32`, and is the only such integer; an unsigned 32-bit
code `u ≥ 2^31` is stored as `u - 2^32`, and two codes that differ by a multiple of
`2^32` are stored as the same error_code. -/
theorem to_i32_wraps_around (T : Type) (X Y : ArgType) (v k f u : Int)
    (hu : (ArgType.integral .uint32_t).holds u) (hbig : 2147483648 ≤ u) :
    (-2147483648 ≤ detail.to_i32 X v ∧ detail.to_i32 X v < 2147483648) ∧
    (detail.to_i32 X v - v) % 4294967296 = 0 ∧
    (∀ y : Int, -2147483648 ≤ y → y < 2147483648 → (y - v) % 4294967296 = 0 →
      y = detail.to_i32 X v) ∧
    detail.to_i32 (.integral .uint32_t) u = u - 4294967296 ∧
    detail.to_i32 X (v + k * 4294967296) = detail.to_i32 X v ∧
    Err T X Y (v + k * 4294967296) f = Err T X Y v f := by
  have hshift : detail.to_i32 X (v + k * 4294967296) = detail.to_i32 X v := by
    rw [to_i32_eq, to_i32_eq]
    unfold static_cast_int32
    omega
  refine ⟨?_, ?_, ?_, ?_, hshift, ?_⟩
  · rw [to_i32_eq]
    unfold static_cast_int32
    omega
  · rw [to_i32_eq]
    unfold static_cast_int32
    omega
  · intro y hlo hhi hcong
    rw [to_i32_eq]
    unfold static_cast_int32
    omega
  · rw [to_i32_eq]
    unfold static_cast_int32
    simp [ArgType.holds, ArgType.carrier, IntegralType.holds, IntegralType.min_value,
      IntegralType.max_value, IntegralType.is_signed, IntegralType.bits] at hu
    omega
  · simp [Err, hshift]

/-- C15, at an input: the unsigned 32-bit code `4294967295` is stored as
`4294967295 - 2^32`, that is -1. -/
theorem to_i32_wraps_around_witness :
    (ArgType.integral .uint32_t).holds 4294967295 ∧ (2147483648 : Int) ≤ 4294967295 ∧
    detail.to_i32 (.integral .uint32_t) 4294967295 = 4294967295 - 4294967296 :=
  ⟨by decide, by decide,
   (to_i32_wraps_around std.monostate (.integral .int64_t) (.integral .int32_t)
      5 1 0 4294967295 (by decide) (by decide)).2.2.2.1⟩

/-! ## The two headers -/

/-- C16: the factories of ds_result.hpp return the same as those of result.hpp:
`to_i32` the same integer, `Ok(value)`, `Ok<T>(args...)`, `Ok()`, `Err<T>(code, facility)`
and `Err(code, facility)` a container in the same state with the same payload or the
same facility and error_code; and in both headers the Status form of `Err` is
`Err<std::monostate>`. -/
theorem headers_define_the_same_factories {W T Args : Type} (ops : PayloadOps W T)
    (cat : ValueCategory) (U : ObjType) (value : T) (w : W) (ctor : Args → W → T × W)
    (args : Args) (CodeT FacilityT : ArgType) (code facility : Int) :
    ds_result_hpp.detail.to_i32 CodeT code = detail.to_i32 CodeT code ∧
    (ds_result_hpp.Ok ops cat U value w).map
        (fun p => (ds_result_hpp.in_result_hpp p.1, p.2)) = Ok ops cat U value w ∧
    (ds_result_hpp.in_result_hpp (ds_result_hpp.Ok_in_place ctor args w).1,
        (ds_result_hpp.Ok_in_place ctor args w).2) = Ok_in_place ctor args w ∧
    ds_result_hpp.in_result_hpp ds_result_hpp.Ok_status = Ok_status ∧
    ds_result_hpp.in_result_hpp (ds_result_hpp.Err T CodeT FacilityT code facility)
      = Err T CodeT FacilityT code facility ∧
    ds_result_hpp.in_result_hpp (ds_result_hpp.Err_status CodeT FacilityT code facility)
      = Err_status CodeT FacilityT code facility ∧
    ds_result_hpp.Err_status CodeT FacilityT code facility
      = ds_result_hpp.Err std.monostate CodeT FacilityT code facility ∧
    Err_status CodeT FacilityT code facility
      = Err std.monostate CodeT FacilityT code facility := by
  refine ⟨rfl, ?_, rfl, rfl, rfl, rfl, rfl, rfl⟩
  unfold ds_result_hpp.Ok Ok
  split <;> rfl

/-! ## The two overloads of the `vk::ResultValue` adapter -/

/-- The two calls of `Err<T>` that the overloads name store the same `ErrorInfo`: the
enumeration `rv.result` and `static_cast<int>(rv.result)` are converted to the same
error_code. -/
theorem vk_code_forms_agree (T : Type) (r : vk.Result) :
    Err T (.enumeration .int32_t) (.integral .int32_t) r.val FACILITY_VK
      = Err T (.integral .int32_t) (.integral .int32_t) r.to_int FACILITY_VK := by
  simp [Err, to_i32_eq, vk.Result.to_int]

/-- C17, at the failing input: for `rv = {Tracker{7}, eSuccess}` of
`vk::ResultValue<Tracker>` the const-lvalue overload produces no container and the
rvalue overload the success holding the payload with id 7, so the two do not return
containers in the same state. -/
theorem as_result_vk_overloads_differ_on_success :
    as_result_vk_copy Tracker.ops (.class_type 0) ⟨{ id := 7 }, vk.Result.eSuccess⟩
        { copies := 0, moves := 0 } = none ∧
    as_result_vk_move Tracker.ops (.class_type 0) ⟨{ id := 7 }, vk.Result.eSuccess⟩
        { copies := 0, moves := 0 }
      = some (.value { id := 7 }, { copies := 0, moves := 1 }) ∧
    as_result_vk_copy Tracker.ops (.class_type 0) ⟨{ id := 7 }, vk.Result.eSuccess⟩
        { copies := 0, moves := 0 }
      ≠ as_result_vk_move Tracker.ops (.class_type 0) ⟨{ id := 7 }, vk.Result.eSuccess⟩
        { copies := 0, moves := 0 } := by
  refine ⟨by decide, by decide, by decide⟩

end ds
